import Mathlib

/-!
Verification of the upload-proxy relay (upload-proxy.mjs).

The relay is a small Node HTTP server with two operations, `POST /fetch?url=...`
(outbound GET, streamed back) and `POST /upload?url=...` (outbound PUT of the
buffered inbound body, truncated echo back).  This file gives a shallow
embedding of the relay's request handler and its helper functions and proves
the specified properties about them.

Modelling conventions:
- WHATWG URL parsing (`new URL(...)`) is runtime-library behaviour, not code of
  this repository; the handler is therefore parameterised by an abstract parse
  function `parseU : String → Option URLData` (returning `none` when the
  constructor would throw).  Likewise `JSON.parse` is abstracted as
  `jparse : String → Option JVal`.
- The inbound request is modelled after the fields the handler reads: method,
  pathname, the `url` search parameter (`none` when absent), the raw
  `X-Extra-Headers` header value, and the inbound body as a list of chunks.
- Response bodies are modelled at the text level: `upstream.text()` yields the
  body text, and the JS `text.slice(0, 2000)` is `String.take 2000`.
- `setTimeout`/`AbortController` real-time behaviour is modelled discretely:
  a fetch outcome carries its duration in milliseconds, and the timer fires
  exactly when the duration reaches `timeoutMs`, aborting the call with the
  error message the source installs; `clearTimeout` in the `finally` block is
  the `timerCleared` flag, set on every exit path.
-/

namespace UploadProxy

/-- The fixed allow-list of target host suffixes (ALLOWED_HOST_SUFFIXES). -/
def ALLOWED_HOST_SUFFIXES : List String :=
  ["developer.api.autodesk.com", "autodesk.com", "amazonaws.com",
   "cloudfront.net", "s3.amazonaws.com"]

/-- Result of successfully parsing a URL: the pieces `isAllowedTarget` reads
(`u.protocol`, `u.hostname`). -/
structure URLData where
  protocol : String
  hostname : String
  deriving Repr, DecidableEq

/-- JS `String.prototype.toLowerCase()` modelled character-wise (the hosts and
header names involved are basic latin). -/
def lowerStr (s : String) : String := ⟨s.data.map Char.toLower⟩

/-- JS `String.prototype.endsWith(suffix)`: the character sequence of `suffix`
is a suffix of that of `s`. -/
def strEndsWith (s suffix : String) : Bool := suffix.data.isSuffixOf s.data

/-- JS `String.prototype.slice(0, n)`: the first `n` characters of `s` (all of
`s` when it is shorter). -/
def strTake (s : String) (n : Nat) : String := ⟨s.data.take n⟩

/-- The host test inside `isAllowedTarget`: with `host` the lower-cased
hostname, `ALLOWED_HOST_SUFFIXES.some((suffix) => host === suffix ||
host.endsWith("." + suffix))`. -/
def hostMatches (hostname : String) : Bool :=
  ALLOWED_HOST_SUFFIXES.any fun suffix =>
    lowerStr hostname == suffix || strEndsWith (lowerStr hostname) ("." ++ suffix)

/-- `isAllowedTarget(targetUrl)`: parse the URL (`none` models the constructor
throwing, caught and turned into `false`), require an http/https protocol,
then run the host suffix test. -/
def isAllowedTarget (parseU : String → Option URLData) (targetUrl : String) : Bool :=
  match parseU targetUrl with
  | none => false
  | some u =>
    if u.protocol != "https:" && u.protocol != "http:" then false
    else hostMatches u.hostname

/-- JSON values, as produced by `JSON.parse`. -/
inductive JVal where
  | null
  | bool (b : Bool)
  | num (n : Int)
  | str (s : String)
  | arr (elems : List JVal)
  | obj (fields : List (String × JVal))

/-- JavaScript falsiness of a parsed JSON value (the `!obj` test):
`null`, `false`, `0` and `""` are falsy. -/
def jsFalsy : JVal → Bool
  | .null => true
  | .bool b => !b
  | .num n => n == 0
  | .str s => s == ""
  | .arr _ => false
  | .obj _ => false

/-- JavaScript `typeof v === "object"` for a parsed JSON value:
true for `null`, arrays and objects. -/
def isObjectType : JVal → Bool
  | .null => true
  | .arr _ => true
  | .obj _ => true
  | _ => false

/-- `Object.entries(v)`: the field list of an object, index/value pairs for an
array (keys are the decimal index strings), and `[]` otherwise. -/
def jsEntries : JVal → List (String × JVal)
  | .obj fields => fields
  | .arr elems => elems.enum.map fun p => (Nat.repr p.1, p.2)
  | _ => []

/-- The forwarding allow-list (`allowed` in `parseExtraHeaders`). -/
def allowedForwardHeaders : List String :=
  ["authorization", "x-ads-region", "accept", "content-type"]

/-- The loop body of `parseExtraHeaders`: keep an entry when its key,
lower-cased, is in the forwarding allow-list and its value is a string. -/
def filterForwardHeaders (entries : List (String × JVal)) : List (String × String) :=
  entries.filterMap fun p =>
    match p.2 with
    | .str s => if allowedForwardHeaders.contains (lowerStr p.1) then some (p.1, s) else none
    | _ => none

/-- `parseExtraHeaders(req)`: read the `x-extra-headers` value (`none` when the
header is absent; the empty string is falsy and also yields `{}`), JSON-parse
it (a throw yields `{}`), reject falsy or non-object values, then filter the
entries through the forwarding allow-list. -/
def parseExtraHeaders (jparse : String → Option JVal) (raw : Option String) :
    List (String × String) :=
  match raw with
  | none => []
  | some str =>
    if str == "" then []
    else
      match jparse str with
      | none => []
      | some v =>
        if jsFalsy v || !isObjectType v then []
        else filterForwardHeaders (jsEntries v)

/-- Upstream response as the handler reads it: status, the two passthrough
headers, the body text (`text()`), whether `text()` resolves (the source
attaches `.catch(() => "")`), and whether `upstream.body` is non-null. -/
structure UpstreamResponse where
  status : Nat
  contentType : Option String
  contentLength : Option String
  bodyText : String
  textOk : Bool
  hasBody : Bool
  deriving Repr, DecidableEq

/-- `upstream.ok`: status in the 2xx range. -/
def respOk (u : UpstreamResponse) : Bool :=
  200 ≤ u.status && u.status ≤ 299

/-- `await upstream.text().catch(() => "")`. -/
def upstreamText (u : UpstreamResponse) : String :=
  if u.textOk then u.bodyText else ""

/-- The outbound fetch timeout (`timeoutMs = 120_000`). -/
def timeoutMs : Nat := 120000

/-- What the network does with the outbound call: either the fetch settles
with a response after `durationMs`, or it fails (DNS/connect error) after
`durationMs` with an error message. -/
inductive FetchOutcome where
  | completes (durationMs : Nat) (resp : UpstreamResponse)
  | netError (durationMs : Nat) (msg : String)
  deriving Repr, DecidableEq

/-- Duration of a fetch outcome. -/
def FetchOutcome.durationMs : FetchOutcome → Nat
  | .completes d _ => d
  | .netError d _ => d

/-- Result of one `proxyFetch` run: the settled value (an error message models
the promise rejecting) and whether `clearTimeout` ran. -/
structure ProxyFetchRun where
  result : Except String UpstreamResponse
  timerCleared : Bool

/-- `proxyFetch`: arm a 120 s timer that aborts the fetch with
`new Error("proxy timeout")`; if the fetch settles first its value is
returned, otherwise the abort makes it reject with the timeout message.
`clearTimeout` sits in a `finally` block, so the timer is released on both
exit paths. -/
def proxyFetch (outcome : FetchOutcome) : ProxyFetchRun :=
  match outcome with
  | .completes d resp =>
    if d < timeoutMs then { result := .ok resp, timerCleared := true }
    else { result := .error "proxy timeout", timerCleared := true }
  | .netError d msg =>
    if d < timeoutMs then { result := .error msg, timerCleared := true }
    else { result := .error "proxy timeout", timerCleared := true }

/-- Body of the relay's response: empty (`res.end()`), a text body
(`res.end(string)`), or the upstream body piped through
(`Readable.fromWeb(body).pipe(res)`). -/
inductive RelayBody where
  | empty
  | text (s : String)
  | streamedUpstream
  deriving Repr, DecidableEq

/-- The relay's response: status code, the `Content-Type` and `Content-Length`
headers it sets (beyond the unconditional CORS headers), and the body. -/
structure RelayResponse where
  status : Nat
  contentType : Option String
  contentLength : Option String
  body : RelayBody
  deriving Repr, DecidableEq

/-- An outbound HTTP call issued by the handler via `proxyFetch`. -/
structure OutboundCall where
  url : String
  method : String
  headers : List (String × String)
  body : Option (List Nat)
  deriving Repr, DecidableEq

/-- The observable effect of handling one inbound request: the response sent,
the outbound calls issued, and whether every armed fetch timer was cleared
(vacuously true when no outbound call was made). -/
structure HandlerResult where
  response : RelayResponse
  outbound : List OutboundCall
  timerCleared : Bool
  deriving Repr, DecidableEq

/-- Inbound request, holding exactly the fields the handler reads. -/
structure InboundRequest where
  method : String
  pathname : String
  target : Option String
  xExtraHeaders : Option String
  bodyChunks : List (List Nat)
  deriving Repr, DecidableEq

/-- A response with no outbound call (the early-return branches). -/
def noCallResult (status : Nat) (body : RelayBody) : HandlerResult :=
  { response := { status := status, contentType := none, contentLength := none, body := body },
    outbound := [], timerCleared := true }

/-- The catch-all branch: `Proxy error: ${e?.message || String(e)}` with
status 500 (`String(e)` on an `Error` with empty message prints `Error`). -/
def proxyErrorResponse (msg : String) : RelayResponse :=
  { status := 500, contentType := some "text/plain; charset=utf-8", contentLength := none,
    body := .text ("Proxy error: " ++ (if msg == "" then "Error" else msg)) }

/-- The truncated plain-text echo used by the `/fetch` error branch and by
`/upload`: upstream status, `text/plain`, `text.slice(0, 2000)`. -/
def truncatedEcho (u : UpstreamResponse) : RelayResponse :=
  { status := u.status, contentType := some "text/plain; charset=utf-8", contentLength := none,
    body := .text (strTake (upstreamText u) 2000) }

/-- The `/fetch` success branch: passthrough `Content-Type` (defaulting to
`application/octet-stream`), `Content-Length` only when truthy, status forced
to 200, and the upstream body piped through (or `res.end()` when null). -/
def fetchSuccessResponse (u : UpstreamResponse) : RelayResponse :=
  { status := 200
    contentType := some (u.contentType.getD "application/octet-stream")
    contentLength :=
      match u.contentLength with
      | some cl => if cl == "" then none else some cl
      | none => none
    body := if u.hasBody then .streamedUpstream else .empty }

/-- The request handler passed to `http.createServer`, as a function of the
two parsing abstractions, the network's behaviour for the (at most one)
outbound call, and the inbound request. Mirrors the source's control flow:
OPTIONS preflight, method check, missing-`url` check (the empty string is
falsy), allow-list check, then the `/fetch` and `/upload` branches, with a
404 fallthrough; a rejected `proxyFetch` promise lands in the outer catch. -/
def handle (parseU : String → Option URLData) (jparse : String → Option JVal)
    (outcome : FetchOutcome) (req : InboundRequest) : HandlerResult :=
  if req.method == "OPTIONS" then
    noCallResult 204 .empty
  else if req.method != "POST" then
    noCallResult 405 (.text "Only POST is supported")
  else
    match req.target with
    | none => noCallResult 400 (.text "Missing ?url=")
    | some t =>
      if t == "" then noCallResult 400 (.text "Missing ?url=")
      else if !(isAllowedTarget parseU t) then
        noCallResult 403 (.text "Target URL not allowed by proxy whitelist")
      else
        if req.pathname == "/fetch" then
          match (proxyFetch outcome).result with
          | .error msg =>
            { response := proxyErrorResponse msg,
              outbound := [{ url := t, method := "GET",
                             headers := parseExtraHeaders jparse req.xExtraHeaders,
                             body := none }],
              timerCleared := (proxyFetch outcome).timerCleared }
          | .ok upstream =>
            if !(respOk upstream) then
              { response := truncatedEcho upstream,
                outbound := [{ url := t, method := "GET",
                               headers := parseExtraHeaders jparse req.xExtraHeaders,
                               body := none }],
                timerCleared := (proxyFetch outcome).timerCleared }
            else
              { response := fetchSuccessResponse upstream,
                outbound := [{ url := t, method := "GET",
                               headers := parseExtraHeaders jparse req.xExtraHeaders,
                               body := none }],
                timerCleared := (proxyFetch outcome).timerCleared }
        else if req.pathname == "/upload" then
          match (proxyFetch outcome).result with
          | .error msg =>
            { response := proxyErrorResponse msg,
              outbound := [{ url := t, method := "PUT",
                             headers := parseExtraHeaders jparse req.xExtraHeaders,
                             body := some req.bodyChunks.flatten }],
              timerCleared := (proxyFetch outcome).timerCleared }
          | .ok upstream =>
            { response := truncatedEcho upstream,
              outbound := [{ url := t, method := "PUT",
                             headers := parseExtraHeaders jparse req.xExtraHeaders,
                             body := some req.bodyChunks.flatten }],
              timerCleared := (proxyFetch outcome).timerCleared }
        else
          noCallResult 404
            (.text "Not found. Use POST /fetch?url=... or POST /upload?url=...")

/-- The ten decimal digit characters. -/
def digitChars : List Char := ['0', '1', '2', '3', '4', '5', '6', '7', '8', '9']

/-- Spec-side reading of the host allow-list check, in the claim's words: the
hostname, case-insensitively, is exactly one of the allowed suffixes or ends
with a dot followed by one of them.  To be compared with `hostMatches`, which
is translated from the source. -/
def specHostAllowed (hostname : String) : Prop :=
  ∃ suffix ∈ ALLOWED_HOST_SUFFIXES,
    lowerStr hostname = lowerStr suffix ∨
    strEndsWith (lowerStr hostname) ("." ++ lowerStr suffix) = true

/-! Concrete fixtures used by witnesses and counterexamples. -/

/-- URL parse stub: every string fails to parse. -/
def parseUNone : String → Option URLData := fun _ => none

/-- A representative allow-listed target URL. -/
def goodTarget : String := "https://developer.api.autodesk.com/oss/v2/buckets/b/objects/o"

/-- URL parse stub mapping `goodTarget` to its parsed form. -/
def parseUTable : String → Option URLData := fun s =>
  if s = goodTarget then some { protocol := "https:", hostname := "developer.api.autodesk.com" }
  else none

/-- JSON parse stub: every string fails to parse. -/
def jparseNone : String → Option JVal := fun _ => none

/-- The spec's example forwarded-header JSON text. -/
def exampleHeadersJson : String :=
  "\x7b\"Authorization\":\"Bearer abc\",\"X-Forbidden\":\"x\",\"Accept\":\"text/plain\"\x7d"

/-- The JSON object `exampleHeadersJson` denotes. -/
def exampleHeadersObj : JVal :=
  .obj [("Authorization", .str "Bearer abc"), ("X-Forbidden", .str "x"),
        ("Accept", .str "text/plain")]

/-- JSON parse stub mapping `exampleHeadersJson` to its parsed object. -/
def jparseTable : String → Option JVal := fun s =>
  if s = exampleHeadersJson then some exampleHeadersObj else none

/-- A failing upstream response with a readable error body. -/
def upstream404 : UpstreamResponse :=
  { status := 404, contentType := some "application/json", contentLength := none,
    bodyText := "resource missing", textOk := true, hasBody := true }

/-- A successful upstream response whose status is not 200. -/
def upstream204 : UpstreamResponse :=
  { status := 204, contentType := none, contentLength := none,
    bodyText := "", textOk := true, hasBody := false }

/-- A plain successful upstream response. -/
def upstream200 : UpstreamResponse :=
  { status := 200, contentType := some "application/octet-stream", contentLength := some "3",
    bodyText := "abc", textOk := true, hasBody := true }

/-! Helper lemmas. -/

theorem digitChar_mem_digitChars (m : Nat) (hm : m < 10) : Nat.digitChar m ∈ digitChars := by
  interval_cases m <;> decide

theorem toDigitsCore_mem_digitChars :
    ∀ (fuel n : Nat) (acc : List Char), (∀ c ∈ acc, c ∈ digitChars) →
      ∀ c ∈ Nat.toDigitsCore 10 fuel n acc, c ∈ digitChars := by
  intro fuel
  induction fuel with
  | zero =>
    intro n acc hacc c hc
    simpa [Nat.toDigitsCore] using hacc c hc
  | succ fuel ih =>
    intro n acc hacc c hc
    rw [Nat.toDigitsCore] at hc
    by_cases h : n / 10 = 0
    · simp only [h, if_pos] at hc
      rcases List.mem_cons.mp hc with hc | hc
      · exact hc ▸ digitChar_mem_digitChars _ (Nat.mod_lt _ (by omega))
      · exact hacc c hc
    · simp only [h, if_neg, if_false] at hc
      refine ih (n / 10) _ ?_ c hc
      intro c' hc'
      rcases List.mem_cons.mp hc' with h' | h'
      · exact h' ▸ digitChar_mem_digitChars _ (Nat.mod_lt _ (by omega))
      · exact hacc c' h'

theorem repr_mem_digitChars (n : Nat) : ∀ c ∈ (Nat.repr n).data, c ∈ digitChars := by
  intro c hc
  exact toDigitsCore_mem_digitChars (n + 1) n [] (by intro c h; cases h) c hc

theorem toLower_of_digit (c : Char) (hc : c ∈ digitChars) : Char.toLower c = c := by
  fin_cases hc <;> decide

theorem lowerStr_of_digits (s : String) (h : ∀ c ∈ s.data, c ∈ digitChars) :
    lowerStr s = s := by
  obtain ⟨data⟩ := s
  simp only [lowerStr]
  congr 1
  have hmap : data.map Char.toLower = data.map id :=
    List.map_congr_left fun c hc => toLower_of_digit c (h c hc)
  rw [hmap, List.map_id]

theorem repr_ne_of_nondigit (n : Nat) (s : String) (c : Char) (hc : c ∈ s.data)
    (hnd : c ∉ digitChars) : Nat.repr n ≠ s := by
  intro he
  exact hnd (repr_mem_digitChars n c (by rw [he]; exact hc))

/-- A decimal index key (as produced by `Object.entries` on an array) is never
in the header forwarding allow-list. -/
theorem repr_not_forwardable (n : Nat) :
    allowedForwardHeaders.contains (lowerStr (Nat.repr n)) = false := by
  rw [lowerStr_of_digits _ (repr_mem_digitChars n)]
  have h1 := repr_ne_of_nondigit n "authorization" 'a' (by decide) (by decide)
  have h2 := repr_ne_of_nondigit n "x-ads-region" 'x' (by decide) (by decide)
  have h3 := repr_ne_of_nondigit n "accept" 'a' (by decide) (by decide)
  have h4 := repr_ne_of_nondigit n "content-type" 'c' (by decide) (by decide)
  simp [allowedForwardHeaders, h1, h2, h3, h4]

/-- Filtering the indexed entries of a JSON array forwards nothing. -/
theorem filterForwardHeaders_enum (elems : List JVal) :
    filterForwardHeaders (elems.enum.map fun p => (Nat.repr p.1, p.2)) = [] := by
  unfold filterForwardHeaders
  rw [List.filterMap_eq_nil_iff]
  rintro ⟨k, v⟩ hp
  rw [List.mem_map] at hp
  obtain ⟨⟨i, w⟩, hi, heq⟩ := hp
  cases heq
  cases w <;> first | rfl | (simp only [repr_not_forwardable]; rfl)

/-- `parseExtraHeaders` yields the empty set whenever the header is absent or
empty, the JSON fails to parse, or it parses to anything but an object. -/
theorem parseExtraHeaders_eq_nil (jparse : String → Option JVal) (raw : Option String)
    (h : raw = none ∨ ∃ r, raw = some r ∧
      (r = "" ∨ jparse r = none ∨ ∃ v, jparse r = some v ∧ ∀ fields, v ≠ JVal.obj fields)) :
    parseExtraHeaders jparse raw = [] := by
  rcases h with h | ⟨r, hr, h⟩
  · rw [h]; rfl
  · rw [hr]
    rcases h with h | h | ⟨v, hv, hobj⟩
    · simp [parseExtraHeaders, h]
    · by_cases he : r = ""
      · simp [parseExtraHeaders, he]
      · simp [parseExtraHeaders, he, h]
    · by_cases he : r = ""
      · simp [parseExtraHeaders, he]
      · cases v with
        | null => simp [parseExtraHeaders, he, hv, jsFalsy, isObjectType]
        | bool b => cases b <;> simp [parseExtraHeaders, he, hv, jsFalsy, isObjectType]
        | num m => simp [parseExtraHeaders, he, hv, jsFalsy, isObjectType, jsEntries, filterForwardHeaders]
        | str s => simp [parseExtraHeaders, he, hv, jsFalsy, isObjectType, jsEntries, filterForwardHeaders]
        | arr elems =>
          simp [parseExtraHeaders, he, hv, jsFalsy, isObjectType, jsEntries,
            filterForwardHeaders_enum]
        | obj fields => exact absurd rfl (hobj fields)

/-- Every outbound call the handler issues carries exactly the sanitized
forwarded-header set, and is a bodiless GET when the path is `/fetch` and a
PUT of the buffered inbound body when the path is `/upload`. -/
theorem handle_outbound_mem (parseU : String → Option URLData) (jparse : String → Option JVal)
    (outcome : FetchOutcome) (req : InboundRequest) (c : OutboundCall)
    (hc : c ∈ (handle parseU jparse outcome req).outbound) :
    c.headers = parseExtraHeaders jparse req.xExtraHeaders ∧
    ((req.pathname = "/fetch" ∧ c.method = "GET" ∧ c.body = none) ∨
     (req.pathname = "/upload" ∧ c.method = "PUT" ∧ c.body = some req.bodyChunks.flatten)) := by
  unfold handle noCallResult at hc
  repeat' split at hc
  all_goals simp only [List.mem_cons, List.not_mem_nil, or_false] at hc
  all_goals subst hc
  all_goals simp_all

/-- A POST with a present, non-empty target that fails the allow-list check is
answered 403 with the fixed message and no outbound call. -/
theorem handle_disallowed (parseU : String → Option URLData) (jparse : String → Option JVal)
    (outcome : FetchOutcome) (req : InboundRequest) (t : String)
    (hm : req.method = "POST") (ht : req.target = some t) (hne : t ≠ "")
    (hallow : isAllowedTarget parseU t = false) :
    (handle parseU jparse outcome req).response.status = 403 ∧
    (handle parseU jparse outcome req).response.body =
      .text "Target URL not allowed by proxy whitelist" ∧
    (handle parseU jparse outcome req).outbound = [] := by
  have hbe : (t == "") = false := beq_eq_false_iff_ne.mpr hne
  simp [handle, noCallResult, hm, ht, hbe, hallow]

/-- Membership in the filtered forwarded-header set, characterized. -/
theorem mem_filterForwardHeaders (fields : List (String × JVal)) (k v : String) :
    (k, v) ∈ filterForwardHeaders fields ↔
      ((k, JVal.str v) ∈ fields ∧ allowedForwardHeaders.contains (lowerStr k) = true) := by
  unfold filterForwardHeaders
  rw [List.mem_filterMap]
  constructor
  · rintro ⟨⟨k', w⟩, hp, hf⟩
    cases w with
    | str s =>
      dsimp only at hf
      by_cases hall : allowedForwardHeaders.contains (lowerStr k') = true
      · rw [if_pos hall] at hf
        simp only [Option.some.injEq, Prod.mk.injEq] at hf
        obtain ⟨rfl, rfl⟩ := hf
        exact ⟨hp, hall⟩
      · rw [if_neg hall] at hf
        exact Option.noConfusion hf
    | null => exact Option.noConfusion hf
    | bool b => exact Option.noConfusion hf
    | num m => exact Option.noConfusion hf
    | arr elems => exact Option.noConfusion hf
    | obj fs => exact Option.noConfusion hf
  · rintro ⟨hmem, hall⟩
    refine ⟨(k, .str v), hmem, ?_⟩
    dsimp only
    rw [if_pos hall]

/-- C3: a hostname passes the allow-list check iff, case-insensitively, it is
exactly an allowed suffix or ends with a dot followed by one; a hostname that
merely contains an allowed suffix as a substring (here a prefix of the middle
of the name) but does not end with it is rejected. -/
theorem C3_host_suffix_allowlist :
    (∀ h, hostMatches h = true ↔ specHostAllowed h) ∧
    "evil-" ++ "amazonaws.com" ++ ".attacker.net" = "evil-amazonaws.com.attacker.net" ∧
    hostMatches "evil-amazonaws.com.attacker.net" = false := by
  refine ⟨?_, by decide, by decide⟩
  intro h
  unfold hostMatches specHostAllowed
  rw [List.any_eq_true]
  constructor
  · rintro ⟨s, hs, hcond⟩
    have hlow : lowerStr s = s := by fin_cases hs <;> decide
    refine ⟨s, hs, ?_⟩
    rw [hlow]
    simpa using hcond
  · rintro ⟨s, hs, hcond⟩
    have hlow : lowerStr s = s := by fin_cases hs <;> decide
    rw [hlow] at hcond
    refine ⟨s, hs, ?_⟩
    simpa using hcond

/-- Witness for C3 at a concrete subdomain of an allowed suffix. -/
theorem C3_witness : specHostAllowed "Files.S3.AmazonAWS.com" :=
  (C3_host_suffix_allowlist.1 "Files.S3.AmazonAWS.com").mp (by decide)

/-- C2: when the X-Extra-Headers value parses to a JSON object, the header set
of any outbound call the handler issues contains exactly the object's entries
whose lower-cased key is in the forwarding allow-list and whose value is a
string; every other entry is dropped and never reaches the upstream target. -/
theorem C2_forwarded_header_filter (parseU : String → Option URLData)
    (jparse : String → Option JVal) (outcome : FetchOutcome) (req : InboundRequest)
    (raw : String) (fields : List (String × JVal)) (c : OutboundCall)
    (hraw : req.xExtraHeaders = some raw) (hne : raw ≠ "")
    (hparse : jparse raw = some (JVal.obj fields))
    (hc : c ∈ (handle parseU jparse outcome req).outbound) :
    ∀ k v, (k, v) ∈ c.headers ↔
      ((k, JVal.str v) ∈ fields ∧ allowedForwardHeaders.contains (lowerStr k) = true) := by
  intro k v
  have hh := (handle_outbound_mem parseU jparse outcome req c hc).1
  have hbe : (raw == "") = false := beq_eq_false_iff_ne.mpr hne
  have hpe : parseExtraHeaders jparse (some raw) = filterForwardHeaders fields := by
    simp [parseExtraHeaders, hbe, hparse, jsFalsy, isObjectType, jsEntries]
  rw [hh, hraw, hpe]
  exact mem_filterForwardHeaders fields k v

/-- Witness for C2 on the spec's example header JSON: the outbound call's
header set contains the Authorization entry but not the X-Forbidden one. -/
theorem C2_witness :
    (("Authorization", "Bearer abc") ∈
      OutboundCall.headers
        { url := goodTarget, method := "GET",
          headers := [("Authorization", "Bearer abc"), ("Accept", "text/plain")],
          body := none }) ∧
    ¬ (("X-Forbidden", "x") ∈
      OutboundCall.headers
        { url := goodTarget, method := "GET",
          headers := [("Authorization", "Bearer abc"), ("Accept", "text/plain")],
          body := none }) := by
  have h := C2_forwarded_header_filter parseUTable jparseTable (.completes 50 upstream200)
    { method := "POST", pathname := "/fetch", target := some goodTarget,
      xExtraHeaders := some exampleHeadersJson, bodyChunks := [] }
    exampleHeadersJson
    [("Authorization", .str "Bearer abc"), ("X-Forbidden", .str "x"),
     ("Accept", .str "text/plain")]
    { url := goodTarget, method := "GET",
      headers := [("Authorization", "Bearer abc"), ("Accept", "text/plain")], body := none }
    rfl (by decide) rfl (by decide)
  constructor
  · exact (h "Authorization" "Bearer abc").mpr ⟨by simp, by decide⟩
  · intro hmem
    exact absurd ((h "X-Forbidden" "x").mp hmem).2 (by decide)

/-- C1 counterexample: a POST to /fetch whose url parameter is present but
empty fails the allow-list check (the empty string does not parse), yet the
relay answers 400, not 403, because the handler treats the empty value as a
missing parameter. -/
theorem C1_counterexample :
    isAllowedTarget parseUNone "" = false ∧
    (handle parseUNone jparseNone (.completes 0 upstream200)
      { method := "POST", pathname := "/fetch", target := some "",
        xExtraHeaders := none, bodyChunks := [] }).response.status = 400 ∧
    (handle parseUNone jparseNone (.completes 0 upstream200)
      { method := "POST", pathname := "/fetch", target := some "",
        xExtraHeaders := none, bodyChunks := [] }).response.status ≠ 403 :=
  ⟨by decide, by decide, by decide⟩

/-- C1 (amended): for every POST to /fetch or /upload whose url parameter is
present with a non-empty value that fails the allow-list check, the relay
responds 403 with the fixed whitelist message and performs no outbound call. -/
theorem C1_disallowed_target_403 (parseU : String → Option URLData)
    (jparse : String → Option JVal) (outcome : FetchOutcome) (req : InboundRequest)
    (t : String) (hm : req.method = "POST")
    (_hp : req.pathname = "/fetch" ∨ req.pathname = "/upload")
    (ht : req.target = some t) (hne : t ≠ "")
    (hallow : isAllowedTarget parseU t = false) :
    (handle parseU jparse outcome req).response.status = 403 ∧
    (handle parseU jparse outcome req).response.body =
      .text "Target URL not allowed by proxy whitelist" ∧
    (handle parseU jparse outcome req).outbound = [] :=
  handle_disallowed parseU jparse outcome req t hm ht hne hallow

/-- Witness for C1 (amended) at a concrete disallowed target. -/
theorem C1_witness :
    (handle parseUNone jparseNone (.completes 0 upstream200)
      { method := "POST", pathname := "/upload", target := some "https://evil.example.net/a",
        xExtraHeaders := none, bodyChunks := [[7]] }).response.status = 403 ∧
    (handle parseUNone jparseNone (.completes 0 upstream200)
      { method := "POST", pathname := "/upload", target := some "https://evil.example.net/a",
        xExtraHeaders := none, bodyChunks := [[7]] }).outbound = [] := by
  have h := C1_disallowed_target_403 parseUNone jparseNone (.completes 0 upstream200)
    { method := "POST", pathname := "/upload", target := some "https://evil.example.net/a",
      xExtraHeaders := none, bodyChunks := [[7]] }
    "https://evil.example.net/a" rfl (Or.inr rfl) rfl (by decide) (by decide)
  exact ⟨h.1, h.2.2⟩

/-- C5 counterexample: a present but unparsable target URL draws 403 (it fails
the allow-list check), not the 400 the claim requires. -/
theorem C5_counterexample :
    parseUNone "not-a-url" = none ∧
    (handle parseUNone jparseNone (.completes 0 upstream200)
      { method := "POST", pathname := "/upload", target := some "not-a-url",
        xExtraHeaders := none, bodyChunks := [] }).response.status = 403 ∧
    (handle parseUNone jparseNone (.completes 0 upstream200)
      { method := "POST", pathname := "/upload", target := some "not-a-url",
        xExtraHeaders := none, bodyChunks := [] }).response.status ≠ 400 :=
  ⟨rfl, by decide, by decide⟩

/-- C5 (amended): for every POST to /fetch or /upload, a missing or empty url
parameter draws 400 with no outbound call, while a present non-empty target
that fails to parse as a URL is rejected by the allow-list check with 403,
again with no outbound call. -/
theorem C5_missing_url_400 (parseU : String → Option URLData)
    (jparse : String → Option JVal) (outcome : FetchOutcome) (req : InboundRequest)
    (hm : req.method = "POST")
    (_hp : req.pathname = "/fetch" ∨ req.pathname = "/upload") :
    ((req.target = none ∨ req.target = some "") →
      (handle parseU jparse outcome req).response.status = 400 ∧
      (handle parseU jparse outcome req).outbound = []) ∧
    (∀ t, req.target = some t → t ≠ "" → parseU t = none →
      (handle parseU jparse outcome req).response.status = 403 ∧
      (handle parseU jparse outcome req).outbound = []) := by
  constructor
  · rintro (ht | ht) <;> simp [handle, noCallResult, hm, ht]
  · intro t ht hne hparse
    have hallow : isAllowedTarget parseU t = false := by
      unfold isAllowedTarget
      rw [hparse]
    have h := handle_disallowed parseU jparse outcome req t hm ht hne hallow
    exact ⟨h.1, h.2.2⟩

/-- Witness for C5 (amended): missing url gives 400; an unparsable one 403. -/
theorem C5_witness :
    ((handle parseUNone jparseNone (.completes 0 upstream200)
      { method := "POST", pathname := "/fetch", target := none,
        xExtraHeaders := none, bodyChunks := [] }).response.status = 400) ∧
    ((handle parseUNone jparseNone (.completes 0 upstream200)
      { method := "POST", pathname := "/fetch", target := some "oss:bucket",
        xExtraHeaders := none, bodyChunks := [] }).response.status = 403) := by
  have h1 := (C5_missing_url_400 parseUNone jparseNone (.completes 0 upstream200)
    { method := "POST", pathname := "/fetch", target := none,
      xExtraHeaders := none, bodyChunks := [] } rfl (Or.inl rfl)).1 (Or.inl rfl)
  have h2 := (C5_missing_url_400 parseUNone jparseNone (.completes 0 upstream200)
    { method := "POST", pathname := "/fetch", target := some "oss:bucket",
      xExtraHeaders := none, bodyChunks := [] } rfl (Or.inl rfl)).2
    "oss:bucket" rfl (by decide) rfl
  exact ⟨h1.1, h2.1⟩

/-- C6 counterexample: a GET to the unknown path /status is answered 405 (the
method check runs before path dispatch), not the 404 the claim requires. -/
theorem C6_counterexample :
    (handle parseUNone jparseNone (.completes 0 upstream200)
      { method := "GET", pathname := "/status", target := none,
        xExtraHeaders := none, bodyChunks := [] }).response.status = 405 ∧
    (handle parseUNone jparseNone (.completes 0 upstream200)
      { method := "GET", pathname := "/status", target := none,
        xExtraHeaders := none, bodyChunks := [] }).response.status ≠ 404 :=
  ⟨by decide, by decide⟩

/-- C6 (amended): any non-POST, non-OPTIONS request draws 405 regardless of
path; 404 is reached only by a POST that survives the url and allow-list
checks and whose path is neither /fetch nor /upload. -/
theorem C6_routing (parseU : String → Option URLData) (jparse : String → Option JVal)
    (outcome : FetchOutcome) (req : InboundRequest) :
    (req.method ≠ "OPTIONS" → req.method ≠ "POST" →
      (handle parseU jparse outcome req).response.status = 405 ∧
      (handle parseU jparse outcome req).outbound = []) ∧
    (∀ t, req.method = "POST" → req.target = some t → t ≠ "" →
      isAllowedTarget parseU t = true →
      req.pathname ≠ "/fetch" → req.pathname ≠ "/upload" →
      (handle parseU jparse outcome req).response.status = 404 ∧
      (handle parseU jparse outcome req).outbound = []) := by
  constructor
  · intro h1 h2
    simp [handle, noCallResult, h1, h2]
  · intro t hm ht hne hallow hf hu
    have hbe : (t == "") = false := beq_eq_false_iff_ne.mpr hne
    have hbf : (req.pathname == "/fetch") = false := beq_eq_false_iff_ne.mpr hf
    have hbu : (req.pathname == "/upload") = false := beq_eq_false_iff_ne.mpr hu
    simp [handle, noCallResult, hm, ht, hbe, hallow, hbf, hbu]

/-- Witness for C6 (amended): DELETE /fetch gives 405; POST /status with an
allow-listed target gives 404. -/
theorem C6_witness :
    ((handle parseUNone jparseNone (.completes 0 upstream200)
      { method := "DELETE", pathname := "/fetch", target := some goodTarget,
        xExtraHeaders := none, bodyChunks := [] }).response.status = 405) ∧
    ((handle parseUTable jparseNone (.completes 0 upstream200)
      { method := "POST", pathname := "/status", target := some goodTarget,
        xExtraHeaders := none, bodyChunks := [] }).response.status = 404) := by
  have h1 := (C6_routing parseUNone jparseNone (.completes 0 upstream200)
    { method := "DELETE", pathname := "/fetch", target := some goodTarget,
      xExtraHeaders := none, bodyChunks := [] }).1 (by decide) (by decide)
  have h2 := (C6_routing parseUTable jparseNone (.completes 0 upstream200)
    { method := "POST", pathname := "/status", target := some goodTarget,
      xExtraHeaders := none, bodyChunks := [] }).2
    goodTarget rfl rfl (by decide) (by decide) (by decide) (by decide)
  exact ⟨h1.1, h2.1⟩

/-- C4: on the /fetch error branch and on every completed /upload exchange the
relay echoes the upstream status and exactly the first 2000 characters of the
upstream body text (all of it when shorter, never more than 2000). -/
theorem C4_truncated_echo (parseU : String → Option URLData) (jparse : String → Option JVal)
    (d : Nat) (resp : UpstreamResponse) (req : InboundRequest) (t : String)
    (hm : req.method = "POST") (ht : req.target = some t) (hne : t ≠ "")
    (hallow : isAllowedTarget parseU t = true) (hd : d < timeoutMs)
    (htext : resp.textOk = true)
    (hbranch : (req.pathname = "/fetch" ∧ respOk resp = false) ∨ req.pathname = "/upload") :
    (handle parseU jparse (.completes d resp) req).response.status = resp.status ∧
    (handle parseU jparse (.completes d resp) req).response.body =
      .text (strTake resp.bodyText 2000) ∧
    (strTake resp.bodyText 2000).length ≤ 2000 ∧
    (resp.bodyText.length ≤ 2000 → strTake resp.bodyText 2000 = resp.bodyText) := by
  have hbe : (t == "") = false := beq_eq_false_iff_ne.mpr hne
  have hrun : (proxyFetch (.completes d resp)).result = .ok resp := by
    simp [proxyFetch, hd]
  have hresp : (handle parseU jparse (.completes d resp) req).response = truncatedEcho resp := by
    rcases hbranch with ⟨hp, hok⟩ | hp
    · simp [handle, hm, ht, hbe, hallow, hp, hrun, hok]
    · simp [handle, hm, ht, hbe, hallow, hp, hrun]
  have hlen : (strTake resp.bodyText 2000).length ≤ 2000 := by
    show (resp.bodyText.data.take 2000).length ≤ 2000
    exact List.length_take_le 2000 resp.bodyText.data
  have hfull : resp.bodyText.length ≤ 2000 → strTake resp.bodyText 2000 = resp.bodyText := by
    intro hle
    show (⟨resp.bodyText.data.take 2000⟩ : String) = resp.bodyText
    rw [List.take_of_length_le hle]
  refine ⟨by rw [hresp]; rfl, ?_, hlen, hfull⟩
  rw [hresp]
  simp [truncatedEcho, upstreamText, htext]

/-- Witness for C4 on a /fetch whose upstream answers 404 with a short body. -/
theorem C4_witness :
    (handle parseUTable jparseNone (.completes 50 upstream404)
      { method := "POST", pathname := "/fetch", target := some goodTarget,
        xExtraHeaders := none, bodyChunks := [] }).response.status = 404 ∧
    (handle parseUTable jparseNone (.completes 50 upstream404)
      { method := "POST", pathname := "/fetch", target := some goodTarget,
        xExtraHeaders := none, bodyChunks := [] }).response.body =
      .text (strTake "resource missing" 2000) := by
  have h := C4_truncated_echo parseUTable jparseNone 50 upstream404
    { method := "POST", pathname := "/fetch", target := some goodTarget,
      xExtraHeaders := none, bodyChunks := [] }
    goodTarget rfl rfl (by decide) (by decide) (by decide) rfl (Or.inl ⟨rfl, by decide⟩)
  exact ⟨h.1, h.2.1⟩

/-- C7: the method of every outbound call is fixed per operation, never
caller-selectable: a /fetch forwarding is a bodiless GET and an /upload
forwarding is a PUT carrying the full buffered inbound body. -/
theorem C7_fixed_methods (parseU : String → Option URLData) (jparse : String → Option JVal)
    (outcome : FetchOutcome) (req : InboundRequest) (c : OutboundCall)
    (hc : c ∈ (handle parseU jparse outcome req).outbound) :
    (req.pathname = "/fetch" ∧ c.method = "GET" ∧ c.body = none) ∨
    (req.pathname = "/upload" ∧ c.method = "PUT" ∧ c.body = some req.bodyChunks.flatten) :=
  (handle_outbound_mem parseU jparse outcome req c hc).2

/-- Witness for C7 on a concrete /upload request with a chunked body. -/
theorem C7_witness :
    (("/upload" : String) = "/fetch" ∧ ("PUT" : String) = "GET" ∧
      (some [1, 2, 3] : Option (List Nat)) = none) ∨
    (("/upload" : String) = "/upload" ∧ ("PUT" : String) = "PUT" ∧
      (some [1, 2, 3] : Option (List Nat)) = some [1, 2, 3]) :=
  C7_fixed_methods parseUTable jparseNone (.completes 50 upstream200)
    { method := "POST", pathname := "/upload", target := some goodTarget,
      xExtraHeaders := none, bodyChunks := [[1, 2], [3]] }
    { url := goodTarget, method := "PUT", headers := [],
      body := some [[1, 2], [3]].flatten }
    (by decide)

/-- C8: when the X-Extra-Headers value is absent, empty, unparsable, or parses
to anything but a JSON object, the forwarded-header set is empty and the
request is handled exactly as if the header had not been sent at all. -/
theorem C8_malformed_extra_headers (parseU : String → Option URLData)
    (jparse : String → Option JVal) (outcome : FetchOutcome) (req : InboundRequest)
    (h : req.xExtraHeaders = none ∨ ∃ r, req.xExtraHeaders = some r ∧
      (r = "" ∨ jparse r = none ∨ ∃ v, jparse r = some v ∧ ∀ fields, v ≠ JVal.obj fields)) :
    parseExtraHeaders jparse req.xExtraHeaders = [] ∧
    handle parseU jparse outcome req =
      handle parseU jparse outcome { req with xExtraHeaders := none } := by
  have h0 : parseExtraHeaders jparse req.xExtraHeaders = [] :=
    parseExtraHeaders_eq_nil jparse _ h
  refine ⟨h0, ?_⟩
  obtain ⟨m, p, tg, x, b⟩ := req
  have h1 : parseExtraHeaders jparse none = [] := rfl
  simp only at h0
  unfold handle
  rw [h0, h1]

/-- Witness for C8 with an unparsable header value. -/
theorem C8_witness :
    parseExtraHeaders jparseNone (some "not-json") = [] ∧
    handle parseUTable jparseNone (.completes 50 upstream200)
      { method := "POST", pathname := "/fetch", target := some goodTarget,
        xExtraHeaders := some "not-json", bodyChunks := [] } =
    handle parseUTable jparseNone (.completes 50 upstream200)
      { method := "POST", pathname := "/fetch", target := some goodTarget,
        xExtraHeaders := none, bodyChunks := [] } :=
  C8_malformed_extra_headers parseUTable jparseNone (.completes 50 upstream200)
    { method := "POST", pathname := "/fetch", target := some goodTarget,
      xExtraHeaders := some "not-json", bodyChunks := [] }
    (Or.inr ⟨"not-json", rfl, Or.inr (Or.inl rfl)⟩)

/-- C9: the outbound call is bounded by the 120 s timer; when the fetch does
not settle within the window it is aborted with the timeout message, the timer
is cleared on every exit path of proxyFetch, and the relay answers 500 with
the timeout message, leaving no exchange open. -/
theorem C9_timeout_bound (parseU : String → Option URLData) (jparse : String → Option JVal)
    (outcome : FetchOutcome) (req : InboundRequest) (t : String)
    (hm : req.method = "POST")
    (hp : req.pathname = "/fetch" ∨ req.pathname = "/upload")
    (ht : req.target = some t) (hne : t ≠ "")
    (hallow : isAllowedTarget parseU t = true)
    (hlate : timeoutMs ≤ outcome.durationMs) :
    (∀ oc : FetchOutcome, (proxyFetch oc).timerCleared = true) ∧
    (proxyFetch outcome).result = .error "proxy timeout" ∧
    (handle parseU jparse outcome req).response.status = 500 ∧
    (handle parseU jparse outcome req).response.body = .text "Proxy error: proxy timeout" ∧
    (handle parseU jparse outcome req).timerCleared = true := by
  have hclear : ∀ oc : FetchOutcome, (proxyFetch oc).timerCleared = true := by
    intro oc
    cases oc <;> (simp only [proxyFetch]; split <;> rfl)
  have hres : (proxyFetch outcome).result = .error "proxy timeout" := by
    cases outcome with
    | completes d resp =>
      simp only [FetchOutcome.durationMs] at hlate
      simp [proxyFetch, Nat.not_lt.mpr hlate]
    | netError d msg =>
      simp only [FetchOutcome.durationMs] at hlate
      simp [proxyFetch, Nat.not_lt.mpr hlate]
  have hbe : (t == "") = false := beq_eq_false_iff_ne.mpr hne
  have hmain : (handle parseU jparse outcome req).response = proxyErrorResponse "proxy timeout" ∧
      (handle parseU jparse outcome req).timerCleared = true := by
    rcases hp with hp | hp
    · constructor <;> simp [handle, hm, ht, hbe, hallow, hp, hres, hclear]
    · constructor <;> simp [handle, hm, ht, hbe, hallow, hp, hres, hclear]
  refine ⟨hclear, hres, by rw [hmain.1]; rfl, by rw [hmain.1]; decide, hmain.2⟩

/-- Witness for C9 on an outbound call that would settle after the window. -/
theorem C9_witness :
    ((handle parseUTable jparseNone (.netError 130000 "connect timed out")
      { method := "POST", pathname := "/fetch", target := some goodTarget,
        xExtraHeaders := none, bodyChunks := [] }).response.status = 500) ∧
    ((handle parseUTable jparseNone (.netError 130000 "connect timed out")
      { method := "POST", pathname := "/fetch", target := some goodTarget,
        xExtraHeaders := none, bodyChunks := [] }).response.body =
      .text "Proxy error: proxy timeout") ∧
    ((handle parseUTable jparseNone (.netError 130000 "connect timed out")
      { method := "POST", pathname := "/fetch", target := some goodTarget,
        xExtraHeaders := none, bodyChunks := [] }).timerCleared = true) := by
  have h := C9_timeout_bound parseUTable jparseNone (.netError 130000 "connect timed out")
    { method := "POST", pathname := "/fetch", target := some goodTarget,
      xExtraHeaders := none, bodyChunks := [] }
    goodTarget rfl (Or.inl rfl) rfl (by decide) (by decide) (by decide)
  exact ⟨h.2.2.1, h.2.2.2.1, h.2.2.2.2⟩

/-- C10: on /fetch, a successful upstream response is always relayed with
status exactly 200 — even when the upstream status is another 2xx code — while
the upstream body is piped through. -/
theorem C10_fetch_success_forces_200 (parseU : String → Option URLData)
    (jparse : String → Option JVal) (d : Nat) (resp : UpstreamResponse)
    (req : InboundRequest) (t : String)
    (hm : req.method = "POST") (hp : req.pathname = "/fetch")
    (ht : req.target = some t) (hne : t ≠ "")
    (hallow : isAllowedTarget parseU t = true) (hd : d < timeoutMs)
    (hok : respOk resp = true) (_hstat : resp.status ≠ 200) :
    (handle parseU jparse (.completes d resp) req).response.status = 200 ∧
    (resp.hasBody = true →
      (handle parseU jparse (.completes d resp) req).response.body = .streamedUpstream) := by
  have hbe : (t == "") = false := beq_eq_false_iff_ne.mpr hne
  have hrun : (proxyFetch (.completes d resp)).result = .ok resp := by
    simp [proxyFetch, hd]
  have hresp : (handle parseU jparse (.completes d resp) req).response =
      fetchSuccessResponse resp := by
    simp [handle, hm, ht, hbe, hallow, hp, hrun, hok]
  refine ⟨by rw [hresp]; rfl, ?_⟩
  intro hb
  rw [hresp]
  simp [fetchSuccessResponse, hb]

/-- Witness for C10 on an upstream 206 partial-content response. -/
theorem C10_witness :
    ((handle parseUTable jparseNone
      (.completes 50 ⟨206, some "application/octet-stream", some "100", "part", true, true⟩)
      { method := "POST", pathname := "/fetch", target := some goodTarget,
        xExtraHeaders := none, bodyChunks := [] }).response.status = 200) ∧
    ((handle parseUTable jparseNone
      (.completes 50 ⟨206, some "application/octet-stream", some "100", "part", true, true⟩)
      { method := "POST", pathname := "/fetch", target := some goodTarget,
        xExtraHeaders := none, bodyChunks := [] }).response.body = .streamedUpstream) := by
  have h := C10_fetch_success_forces_200 parseUTable jparseNone 50
    ⟨206, some "application/octet-stream", some "100", "part", true, true⟩
    { method := "POST", pathname := "/fetch", target := some goodTarget,
      xExtraHeaders := none, bodyChunks := [] }
    goodTarget rfl rfl rfl (by decide) (by decide) (by decide) (by decide) (by decide)
  exact ⟨h.1, h.2 rfl⟩

end UploadProxy
